import Mathlib

/-!
Verification development for the AION relayer core (TypeScript sources under
src/server/relayer and the executor module).  The definitions below are a
shallow embedding of the relevant TypeScript functions: external effects
(ethers RPC calls, signature recovery, drizzle database queries, wall clocks)
are passed in explicitly as oracle records, and JavaScript exceptions are
modelled with Option / Except.  Machine numbers (millisecond clocks, wei
amounts, block numbers) are modelled as Int, matching the arbitrary-precision
BigNumber / number semantics used by the code in the ranges it operates in.
-/

namespace Aion

/-- Lower-casing of a string, character by character; on the ASCII address
and error strings handled by the relayer this coincides with the JavaScript
toLowerCase method. -/
def lowerAscii (s : String) : String := ⟨s.data.map Char.toLower⟩

/-- Whether the first character list starts with the second. -/
def startsWithList : List Char → List Char → Bool
  | _, [] => true
  | [], _ :: _ => false
  | a :: as, b :: bs => a == b && startsWithList as bs

/-- Whether the second character list occurs contiguously in the first. -/
def hasInfixList : List Char → List Char → Bool
  | s, pat =>
      match s with
      | [] => startsWithList [] pat
      | _ :: rest => startsWithList s pat || hasInfixList rest pat

/-- Substring test matching the JavaScript String.prototype.includes method:
true iff pat occurs contiguously in s (the empty pattern always occurs). -/
def strIncludes (s pat : String) : Bool :=
  hasInfixList s.data pat.data

/-- The six check flags computed by TransferValidator.validateSignedTransfer
(src/server/relayer/validator.ts lines 81 to 88). -/
structure Checks where
  signatureValid : Bool
  deadlineValid : Bool
  nonceUnused : Bool
  senderHasFunds : Bool
  gracePeriodActive : Bool
  amountValid : Bool
deriving DecidableEq, Repr

/-- The ValidationResult record returned by the validator
(src/server/relayer/validator.ts lines 6 to 17). -/
structure ValidationResult where
  isValid : Bool
  errors : List String
  checks : Checks
deriving DecidableEq, Repr

/-- A SignedTransferMessage (src/server/relayer/validator.ts lines 19 to 28).
The field named from in TypeScript is called fromAddr here because from is a
Lean keyword. -/
structure SignedTransferMessage where
  fromAddr : String
  toAddr : String
  amount : String
  nonce : String
  deadline : Int
  signature : String
  contractAddress : String
  tokenAddress : Option String
deriving DecidableEq, Repr

/-- A persisted row of the signed_transfers table, with the columns the
relayer code reads and writes (queue.ts and the executor module). -/
structure TransferRow where
  id : Nat
  fromAddress : String
  toAddress : String
  amount : String
  nonce : String
  deadline : Int
  signature : String
  contractAddress : String
  tokenAddress : Option String
  status : String
  txHash : Option String
  blockNumber : Option Int
  retryCount : Nat
  errorMessage : Option String
  createdAt : Int
  validatedAt : Option Int
  submittedAt : Option Int
  confirmedAt : Option Int
deriving DecidableEq, Repr

/-- A row of the transaction_logs append-only table. -/
structure LogEvent where
  transferId : Nat
  status : String
  message : String
  timestamp : Int
deriving DecidableEq, Repr

/-- The durable store state: the signed_transfers rows and the
transaction_logs rows (logs are appended at the end of the list). -/
structure DBState where
  rows : List TransferRow
  logs : List LogEvent
deriving DecidableEq, Repr

/-- One typed value as passed to ethers.utils.solidityKeccak256. -/
inductive EthVal where
  | addr (a : String)
  | uint (n : Int)
  | b32 (s : String)
deriving DecidableEq, Repr

/-- An EIP-712 domain separator record, with the fields the repository
builds in its EIP-712 code paths (src/unnamed/part_008 lines 122 to 128 on
the server, src/unnamed/part_002 on the client). -/
structure EIP712Domain where
  name : String
  version : String
  chainId : Int
  verifyingContract : String
deriving DecidableEq, Repr

/-- The typed struct signed under EIP-712 in the repository: ETHTransfer for
native transfers and ERC20Transfer for token transfers, with the field lists
of src/unnamed/part_008 lines 133 to 173. -/
inductive TypedStruct where
  | ethTransfer (fromAddr toAddr : String) (amount : Int) (nonce : String) (deadline : Int)
  | erc20Transfer (token fromAddr toAddr : String) (amount : Int) (nonce : String) (deadline : Int)
deriving DecidableEq, Repr

/-- A symbolic message digest offered to signature recovery.  Distinct
constructors model the collision resistance of keccak256: a legacy
personal-sign digest (EIP-191 prefix over an inner packed keccak hash) is
never equal to an EIP-712 typed-data digest. -/
inductive Digest where
  | personalSign (packed : List EthVal)
  | eip712 (domain : EIP712Domain) (structData : TypedStruct)
deriving DecidableEq, Repr

/-- The packed field list the validator hashes with solidityKeccak256
(src/server/relayer/validator.ts lines 114 to 126): the token address is
prepended for ERC20 transfers, and the contract address is appended last. -/
def codeMessagePacked (t : SignedTransferMessage) (amountWei : Int) : List EthVal :=
  match t.tokenAddress with
  | some tok =>
      [EthVal.addr tok, EthVal.addr t.fromAddr, EthVal.addr t.toAddr,
       EthVal.uint amountWei, EthVal.b32 t.nonce, EthVal.uint t.deadline,
       EthVal.addr t.contractAddress]
  | none =>
      [EthVal.addr t.fromAddr, EthVal.addr t.toAddr,
       EthVal.uint amountWei, EthVal.b32 t.nonce, EthVal.uint t.deadline,
       EthVal.addr t.contractAddress]

/-- The digest the validator actually verifies: ethers.utils.verifyMessage
over the arrayified packed hash, i.e. a legacy personal-sign digest
(src/server/relayer/validator.ts lines 128 to 131). -/
def codeDigest (t : SignedTransferMessage) (amountWei : Int) : Digest :=
  Digest.personalSign (codeMessagePacked t amountWei)

/-- The EIP-712 domain built by the EIP-712 validator variant of the
repository (src/unnamed/part_008 lines 122 to 128): name AION, version 1,
the current network chain id (that variant defaults it to Sepolia 11155111
when the network query fails) and the transfer contract address.  The
client component src/unnamed/part_002 builds the same domain when signing.
The deployed validator at src/server/relayer/validator.ts never builds it:
that file verifies personal-sign digests instead. -/
def eip712Domain (chainId : Int) (t : SignedTransferMessage) : EIP712Domain :=
  { name := "AION", version := "1", chainId := chainId,
    verifyingContract := t.contractAddress }

/-- The typed struct the EIP-712 validator variant signs over
(src/unnamed/part_008 lines 133 to 173): ERC20Transfer with the token
address prepended when tokenAddress is present, ETHTransfer otherwise, the
amount as the parsed wei value. -/
def eip712TypedStruct (t : SignedTransferMessage) (amountWei : Int) : TypedStruct :=
  match t.tokenAddress with
  | some tok => TypedStruct.erc20Transfer tok t.fromAddr t.toAddr amountWei t.nonce t.deadline
  | none => TypedStruct.ethTransfer t.fromAddr t.toAddr amountWei t.nonce t.deadline

/-- The EIP-712 typed-data digest that ethers.utils.verifyTypedData
recovers from in the EIP-712 validator variant (src/unnamed/part_008 lines
176 to 181) — the digest the claim says the deployed validator uses. -/
def eip712Digest (chainId : Int) (t : SignedTransferMessage) (amountWei : Int) : Digest :=
  Digest.eip712 (eip712Domain chainId t) (eip712TypedStruct t amountWei)

/-- External-world oracle for one validateSignedTransfer run: the outcome of
amount parsing, of signature recovery on a given digest, and of the four
contract view calls.  Except.error models a thrown JavaScript exception,
Option.none a throwing parse or recovery. -/
structure OracleEnv where
  now : Int
  parseAmount : Option Int
  recover : Digest → String → Option String
  usedNonces : Except String Bool
  lockedFundsETH : Except String Int
  lockedFundsERC20 : Except String Int
  withdrawTimestamps : Except String Int

/-- Conjunction of the six check flags, as computed by
Object.values(checks).every(Boolean) in validator.ts line 227. -/
def allChecksHold (c : Checks) : Bool :=
  c.signatureValid && c.deadlineValid && c.nonceUnused &&
  c.senderHasFunds && c.gracePeriodActive && c.amountValid

/-- Amount check (validator.ts lines 91 to 100): parseEther must succeed and
the parsed amount must be strictly positive. -/
def amountStage (env : OracleEnv) : Bool × List String :=
  match env.parseAmount with
  | none => (false, ["Invalid amount format"])
  | some a =>
      if a > 0 then (true, []) else (false, ["Amount must be greater than zero"])

/-- Deadline check (validator.ts lines 102 to 107): current unix time must
not exceed the deadline. -/
def deadlineStage (env : OracleEnv) (t : SignedTransferMessage) : Bool × List String :=
  if env.now ≤ t.deadline then (true, []) else (false, ["Transfer deadline has expired"])

/-- Signature check (validator.ts lines 109 to 139): recover a signer from
the legacy personal-sign digest of the packed fields and compare it to the
from address case-insensitively; any thrown error yields a failed check. -/
def signatureStage (env : OracleEnv) (t : SignedTransferMessage) : Bool × List String :=
  match env.parseAmount with
  | none => (false, ["Signature verification failed"])
  | some aw =>
      match env.recover (codeDigest t aw) t.signature with
      | none => (false, ["Signature verification failed"])
      | some rec =>
          if lowerAscii rec == lowerAscii t.fromAddr then (true, [])
          else (false, ["Invalid signature"])

/-- Database nonce rows relevant to a transfer (validator.ts lines 145 to
153): rows holding the same nonce, minus the row under re-validation.  The
exclusion mirrors the JavaScript truthiness test on excludeTransferId, so an
id of zero disables the exclusion. -/
def relevantNonceRows (rows : List TransferRow) (t : SignedTransferMessage)
    (excludeId : Option Nat) : List TransferRow :=
  let existing := rows.filter (fun r => r.nonce == t.nonce)
  match excludeId with
  | some i => if i == 0 then existing else existing.filter (fun r => r.id ≠ i)
  | none => existing

/-- On-chain nonce check, flag part (validator.ts lines 165 to 181): the
usedNonces view returning true clears the flag, a thrown view call leaves
the database verdict standing. -/
def nonceUnusedFlag (env : OracleEnv) (rows : List TransferRow)
    (t : SignedTransferMessage) (excludeId : Option Nat) : Bool :=
  match env.usedNonces with
  | Except.ok true => false
  | _ => (relevantNonceRows rows t excludeId).length == 0

/-- On-chain nonce check, error part: a positive usedNonces answer appends
the on-chain message unless the database message is already present, and a
thrown view call appends the failed-check message. -/
def onchainNonceErrors (env : OracleEnv) (errsA : List String) : List String :=
  match env.usedNonces with
  | Except.ok true =>
      if errsA.contains "Nonce already used" then errsA
      else errsA ++ ["Nonce already used on-chain"]
  | Except.ok false => errsA
  | Except.error _ => errsA ++ ["Failed to check nonce status on-chain"]

/-- Locked-balance check (validator.ts lines 183 to 202): a throwing
parseEther or view call fails the check with the failed-balance message,
otherwise the locked balance must reach the required amount. -/
def balanceStage (env : OracleEnv) (t : SignedTransferMessage) : Bool × List String :=
  match env.parseAmount with
  | none => (false, ["Failed to check sender balance"])
  | some req =>
      match (if t.tokenAddress.isSome then env.lockedFundsERC20 else env.lockedFundsETH) with
      | Except.error _ => (false, ["Failed to check sender balance"])
      | Except.ok bal =>
          if bal ≥ req then (true, []) else (false, ["Insufficient locked funds"])

/-- Grace-period check (validator.ts lines 204 to 221): a zero withdrawal
timestamp means no active lockout; a positive one allows transfers only
until three hundred seconds past it; a thrown view call fails the check. -/
def graceStage (env : OracleEnv) : Bool × List String :=
  match env.withdrawTimestamps with
  | Except.error _ => (false, ["Failed to check grace period status"])
  | Except.ok wt =>
      if wt > 0 then
        (if env.now ≤ wt + 300 then ((true : Bool), ([] : List String))
         else (false, ["Sender is in withdrawal lockout period"]))
      else (true, [])

/-- Database nonce check errors (validator.ts lines 160 to 163). -/
def dbNonceErrors (rows : List TransferRow) (t : SignedTransferMessage)
    (excludeId : Option Nat) : List String :=
  if (relevantNonceRows rows t excludeId).length == 0 then []
  else ["Nonce already used"]

/-- The check flags computed on the path where the database nonce query
succeeds. -/
def okChecks (env : OracleEnv) (rows : List TransferRow)
    (t : SignedTransferMessage) (excludeId : Option Nat) : Checks :=
  { signatureValid := (signatureStage env t).1
    deadlineValid := (deadlineStage env t).1
    nonceUnused := nonceUnusedFlag env rows t excludeId
    senderHasFunds := (balanceStage env t).1
    gracePeriodActive := (graceStage env).1
    amountValid := (amountStage env).1 }

/-- The error list accumulated on the path where the database nonce query
succeeds, in source push order: amount, deadline, signature, database
nonce, on-chain nonce, balance, grace period. -/
def okErrors (env : OracleEnv) (rows : List TransferRow)
    (t : SignedTransferMessage) (excludeId : Option Nat) : List String :=
  let errsA := (amountStage env).2 ++ (deadlineStage env t).2 ++ (signatureStage env t).2
                ++ dbNonceErrors rows t excludeId
  onchainNonceErrors env errsA ++ (balanceStage env t).2 ++ (graceStage env).2

/-- The check flags when the database nonce query throws: the flow jumps to
the outer catch of validator.ts line 223, so every check after the
signature one keeps its initial false value. -/
def errChecks (env : OracleEnv) (t : SignedTransferMessage) : Checks :=
  { signatureValid := (signatureStage env t).1
    deadlineValid := (deadlineStage env t).1
    nonceUnused := false
    senderHasFunds := false
    gracePeriodActive := false
    amountValid := (amountStage env).1 }

/-- The error list when the database nonce query throws with message m. -/
def errErrors (env : OracleEnv) (t : SignedTransferMessage) (m : String) : List String :=
  (amountStage env).2 ++ (deadlineStage env t).2 ++ (signatureStage env t).2
    ++ ["Validation error: " ++ m]

/-- TransferValidator.validateSignedTransfer (validator.ts lines 79 to 234),
as a function of the oracle environment, the database rows read by the nonce
query (Except.error models the query throwing, which jumps to the outer
catch and skips every later check), the candidate transfer and the optional
excluded transfer id.  The overall verdict is the conjunction of all six
flags and error-freeness, as on line 227 of the source. -/
def validateSignedTransfer (env : OracleEnv) (dbRows : Except String (List TransferRow))
    (t : SignedTransferMessage) (excludeId : Option Nat) : ValidationResult :=
  match dbRows with
  | Except.error m =>
      { isValid := allChecksHold (errChecks env t) && (errErrors env t m).length == 0
        errors := errErrors env t m
        checks := errChecks env t }
  | Except.ok rows =>
      { isValid := allChecksHold (okChecks env rows t excludeId)
                    && (okErrors env rows t excludeId).length == 0
        errors := okErrors env rows t excludeId
        checks := okChecks env rows t excludeId }

/-- JavaScript truthiness of an optional string: null and the empty string
are falsy. -/
def truthyStr : Option String → Bool
  | none => false
  | some s => !(s == "")

/-- JavaScript truthiness of an optional number: null and zero are falsy. -/
def truthyInt : Option Int → Bool
  | none => false
  | some n => !(n == 0)

/-- Update every row holding the given id (the drizzle update with a
where-clause on id). -/
def setRow (db : DBState) (tid : Nat) (f : TransferRow → TransferRow) : DBState :=
  { db with rows := db.rows.map (fun r => if r.id = tid then f r else r) }

/-- Append one transaction_logs row (logTransferEvent in queue.ts and in the
executor module). -/
def appendLog (db : DBState) (tid : Nat) (status message : String) (nowMs : Int) : DBState :=
  { db with logs := db.logs ++ [{ transferId := tid, status := status,
                                  message := message, timestamp := nowMs }] }

/-- The column updates applied by updateTransferStatus to the targeted row:
the new status, the error message when truthy, and the transition timestamp
matching the new status. -/
def statusUpdateFields (nowMs : Int) (status : String) (errMsg : Option String)
    (r : TransferRow) : TransferRow :=
  let useMsg : Bool := match errMsg with
    | some m => !(m == "")
    | none => false
  let r1 := { r with status := status }
  let r2 := if useMsg then { r1 with errorMessage := errMsg } else r1
  if status == "validated" then { r2 with validatedAt := some nowMs }
  else if status == "pending" then { r2 with submittedAt := some nowMs }
  else if status == "confirmed" then { r2 with confirmedAt := some nowMs }
  else r2

/-- The log message of updateTransferStatus: the error message when truthy,
a default otherwise. -/
def statusLogMessage (status : String) (errMsg : Option String) : String :=
  match errMsg with
  | some m => if m == "" then "Status updated to " ++ status else m
  | none => "Status updated to " ++ status

/-- TransactionExecutor.updateTransferStatus (executor module lines 333 to
358): set the status, optionally the error message (skipped for an empty
string by JavaScript truthiness), the transition timestamp matching the new
status, and append a log event whose message defaults when the error message
is absent or empty. -/
def updateTransferStatus (nowMs : Int) (db : DBState) (tid : Nat)
    (status : String) (errMsg : Option String) : DBState :=
  appendLog (setRow db tid (statusUpdateFields nowMs status errMsg)) tid status
    (statusLogMessage status errMsg) nowMs

/-- The SignedTransferMessage the executor rebuilds from a stored row
(executor module lines 99 to 108). -/
def msgOfRow (r : TransferRow) : SignedTransferMessage :=
  { fromAddr := r.fromAddress, toAddr := r.toAddress, amount := r.amount,
    nonce := r.nonce, deadline := r.deadline, signature := r.signature,
    contractAddress := r.contractAddress, tokenAddress := r.tokenAddress }

/-- The substrings whose presence in a lower-cased error message makes it
retryable (executor module lines 374 to 388). -/
def retryableErrorList : List String :=
  ["network error", "timeout", "connection refused", "nonce too low",
   "replacement transaction underpriced", "insufficient funds for gas"]

/-- TransactionExecutor.isRetryableError. -/
def isRetryableError (msg : String) : Bool :=
  retryableErrorList.any (fun e => strIncludes (lowerAscii msg) e)

/-- The ExecutionResult record returned by executeSignedTransfer. -/
structure ExecOutcome where
  success : Bool
  txHash : Option String
  blockNumber : Option Int
  gasUsed : Option String
  error : Option String
deriving DecidableEq, Repr

/-- A transaction receipt as consumed by the executor. -/
structure Receipt where
  status : Int
  blockNumber : Int
  gasUsed : Int
  transactionHash : String
deriving DecidableEq, Repr

/-- External-world oracle for one executeSignedTransfer run: the validation
oracle, the contract submission outcome, the receipt await outcome, and the
message of a throwing parseEther at the submission stage. -/
structure ExecEnv where
  oracle : OracleEnv
  submitResult : Except String String
  waitResult : Except String Receipt
  parseFailMsg : String

/-- Result of one executor run: the returned ExecutionResult, the database
after the run, and whether an on-chain submission was handed to the RPC
node. -/
structure ExecStep where
  outcome : ExecOutcome
  db : DBState
  submitted : Bool
deriving Repr

/-- The catch block of executeSignedTransfer (executor module lines 280 to
327): classify the thrown message, bump the retry count and log a retry
event when retryable and under the cap, otherwise record a failed status. -/
def execCatch (nowMs : Int) (db : DBState) (tid : Nat) (msg : String)
    (submitted : Bool) : ExecStep :=
  let permanent : ExecStep :=
    { outcome := { success := false, txHash := none, blockNumber := none,
                   gasUsed := none, error := some msg },
      db := updateTransferStatus nowMs db tid "failed" (some msg),
      submitted := submitted }
  if isRetryableError msg then
    let cur := db.rows.find? (fun r => r.id == tid)
    let prev : Nat := match cur with
      | some r => r.retryCount
      | none => 0
    let newRetryCount := prev + 1
    if newRetryCount ≤ 3 then
      let db1 := setRow db tid
        (fun r => { r with retryCount := newRetryCount, errorMessage := some msg })
      let db2 := appendLog db1 tid "retry" ("Retry " ++ toString newRetryCount ++ "/3") nowMs
      let delay := (2 : Int) ^ newRetryCount * 1000
      { outcome := { success := false, txHash := none, blockNumber := none,
                     gasUsed := none,
                     error := some ("Retrying in " ++ toString delay ++ "ms (attempt "
                                     ++ toString newRetryCount ++ "/3)") },
        db := db2, submitted := submitted }
    else permanent
  else permanent

/-- The submission phase of executeSignedTransfer (executor module lines 146
to 278): flip to pending, parse the amount, submit the transaction, record
its hash, await the receipt and record confirmation or failure; thrown
errors flow to the catch block. -/
def execSubmitPhase (eenv : ExecEnv) (nowMs : Int) (db : DBState) (tid : Nat) : ExecStep :=
  let db1 := updateTransferStatus nowMs db tid "pending" none
  match eenv.oracle.parseAmount with
  | none => execCatch nowMs db1 tid eenv.parseFailMsg false
  | some _ =>
      match eenv.submitResult with
      | Except.error m => execCatch nowMs db1 tid m false
      | Except.ok h =>
          let db2 := setRow db1 tid
            (fun r => { r with txHash := some h, submittedAt := some nowMs })
          match eenv.waitResult with
          | Except.error m => execCatch nowMs db2 tid m true
          | Except.ok rc =>
              if rc.status == 1 then
                let db3 := setRow db2 tid
                  (fun r => { r with
                              status := "confirmed"
                              blockNumber := some rc.blockNumber
                              confirmedAt := some nowMs })
                let db4 := appendLog db3 tid "confirmed" "Transaction confirmed" nowMs
                { outcome := { success := true, txHash := some rc.transactionHash,
                               blockNumber := some rc.blockNumber,
                               gasUsed := some (toString rc.gasUsed), error := none },
                  db := db4, submitted := true }
              else
                { outcome := { success := false, txHash := none, blockNumber := none,
                               gasUsed := none, error := some "Transaction reverted" },
                  db := updateTransferStatus nowMs db2 tid "failed" (some "Transaction reverted"),
                  submitted := true }

/-- TransactionExecutor.executeSignedTransfer (executor module lines 75 to
331): per-id guard, row lookup, status guard, re-validation excluding the
own row, the race-recovery branch on a joined error string containing the
nonce-already-used text together with truthy txHash and blockNumber, the
permanent-failure classification, and otherwise the submission phase. -/
def executeSignedTransfer (eenv : ExecEnv) (proc : List Nat) (nowMs : Int)
    (db : DBState) (tid : Nat) : ExecStep :=
  if proc.contains tid then
    { outcome := { success := false, txHash := none, blockNumber := none,
                   gasUsed := none, error := some "Transfer already being processed" },
      db := db, submitted := false }
  else
    match db.rows.find? (fun r => r.id == tid) with
    | none =>
        { outcome := { success := false, txHash := none, blockNumber := none,
                       gasUsed := none, error := some "Transfer not found" },
          db := db, submitted := false }
    | some row =>
        if row.status ≠ "validated" then
          { outcome := { success := false, txHash := none, blockNumber := none,
                         gasUsed := none,
                         error := some ("Transfer status is " ++ row.status
                                         ++ ", expected validated") },
            db := db, submitted := false }
        else
          let v := validateSignedTransfer eenv.oracle (Except.ok db.rows) (msgOfRow row) (some tid)
          if v.isValid then execSubmitPhase eenv nowMs db tid
          else
            let errs := String.intercalate "; " v.errors
            if strIncludes errs "Nonce already used" && truthyStr row.txHash
                && truthyInt row.blockNumber then
              let db1 := if row.status ≠ "confirmed"
                then updateTransferStatus nowMs db tid "confirmed" none else db
              { outcome := { success := true, txHash := row.txHash,
                             blockNumber := row.blockNumber, gasUsed := none, error := none },
                db := db1, submitted := false }
            else if strIncludes errs "Nonce already used"
                || strIncludes errs "Transfer deadline has expired" then
              { outcome := { success := false, txHash := none, blockNumber := none,
                             gasUsed := none, error := some errs },
                db := updateTransferStatus nowMs db tid "permanently_failed" (some errs),
                submitted := false }
            else
              { outcome := { success := false, txHash := none, blockNumber := none,
                             gasUsed := none, error := some errs },
                db := updateTransferStatus nowMs db tid "failed" (some errs),
                submitted := false }

/-- The result record of TransactionQueue.submitTransfer. -/
structure SubmitResult where
  success : Bool
  transferId : Option Nat
  errors : List String
deriving DecidableEq, Repr

/-- The freshly inserted row of queue.ts lines 94 to 107: status received,
no execution state yet. -/
def receivedRow (t : SignedTransferMessage) (nextId : Nat) (nowMs : Int) : TransferRow :=
  { id := nextId, fromAddress := t.fromAddr, toAddress := t.toAddr,
    amount := t.amount, nonce := t.nonce, deadline := t.deadline,
    signature := t.signature, contractAddress := t.contractAddress,
    tokenAddress := t.tokenAddress, status := "received", txHash := none,
    blockNumber := none, retryCount := 0, errorMessage := none,
    createdAt := nowMs, validatedAt := none, submittedAt := none,
    confirmedAt := none }

/-- The immediate status update of queue.ts lines 119 to 125. -/
def markValidated (nowMs : Int) (r : TransferRow) : TransferRow :=
  { r with status := "validated", validatedAt := some nowMs }

/-- TransactionQueue.submitTransfer (queue.ts lines 64 to 160): validate,
and on success insert a received row, log the received event, flip the row
to validated and log the validated event; on failure return the validation
errors without touching the store. -/
def submitTransfer (env : OracleEnv) (nowMs : Int) (db : DBState)
    (t : SignedTransferMessage) (nextId : Nat) : SubmitResult × DBState :=
  let v := validateSignedTransfer env (Except.ok db.rows) t none
  if v.isValid then
    let db1 : DBState := { db with rows := db.rows ++ [receivedRow t nextId nowMs] }
    let db2 := appendLog db1 nextId "received" "Transfer received and stored" nowMs
    let db3 := setRow db2 nextId (markValidated nowMs)
    let db4 := appendLog db3 nextId "validated" "Transfer validated and queued for execution" nowMs
    ({ success := true, transferId := some nextId, errors := [] }, db4)
  else
    ({ success := false, transferId := none, errors := v.errors }, db)

/-- Insertion into a list kept ascending by createdAt. -/
def insertByCreatedAt (r : TransferRow) : List TransferRow → List TransferRow
  | [] => [r]
  | x :: xs => if r.createdAt < x.createdAt then r :: x :: xs else x :: insertByCreatedAt r xs

/-- Sort rows by createdAt ascending (the orderBy clause of the queue
query). -/
def sortByCreatedAt (l : List TransferRow) : List TransferRow :=
  l.foldr insertByCreatedAt []

/-- The selection query of TransactionQueue.processQueue (queue.ts lines 170
to 180): rows whose status equals validated and does not equal
permanently_failed, ordered by createdAt ascending, limited to the free
execution slots. -/
def selectValidated (db : DBState) (limit : Nat) : List TransferRow :=
  (sortByCreatedAt (db.rows.filter
    (fun r => r.status == "validated" && !(r.status == "permanently_failed")))).take limit

/-- TransactionQueue.processRetryQueue (queue.ts lines 214 to 244): scan up
to five failed rows with retryCount below three and, when the wall time
since the row creation reaches two to the retryCount seconds, flip the row
back to validated and log a retry_queued event. -/
def processRetryQueue (nowMs : Int) (db : DBState) : DBState :=
  let retryable := (db.rows.filter
    (fun r => r.status == "failed" && r.retryCount < 3)).take 5
  retryable.foldl (fun acc r =>
    if nowMs - r.createdAt ≥ (2 : Int) ^ r.retryCount * 1000 then
      appendLog (setRow acc r.id (fun x => { x with status := "validated" }))
        r.id "retry_queued" ("Queued for retry attempt " ++ toString (r.retryCount + 1)) nowMs
    else acc) db

/-- TransactionQueue.processQueue (queue.ts lines 162 to 204), with the
per-transfer executor oracles supplied as a function of the transfer id and
the concurrent executions serialized in selection order.  The guard mirrors
the isProcessing flag and the concurrency cap check. -/
def processQueue (eenvf : Nat → ExecEnv) (nowMs : Int) (isProcessing : Bool)
    (current maxConc : Nat) (db : DBState) : DBState :=
  if !isProcessing || current ≥ maxConc then db
  else
    let selected := selectValidated db (maxConc - current)
    let db1 := selected.foldl
      (fun acc r => (executeSignedTransfer (eenvf r.id) [] nowMs acc r.id).db) db
    processRetryQueue nowMs db1

/-- The QueueStats record (queue.ts lines 12 to 17). -/
structure QueueStats where
  pending : Nat
  processing : Nat
  failed : Nat
  completed : Nat
deriving DecidableEq, Repr

/-- TransactionQueue.getQueueStats (queue.ts lines 246 to 283): four
sequential selects by status; any thrown store error is caught and yields
all-zero counts. -/
def getQueueStats (sel : String → Except String (List TransferRow)) : QueueStats :=
  match sel "validated" with
  | Except.error _ => { pending := 0, processing := 0, failed := 0, completed := 0 }
  | Except.ok p =>
      match sel "pending" with
      | Except.error _ => { pending := 0, processing := 0, failed := 0, completed := 0 }
      | Except.ok pr =>
          match sel "failed" with
          | Except.error _ => { pending := 0, processing := 0, failed := 0, completed := 0 }
          | Except.ok f =>
              match sel "confirmed" with
              | Except.error _ => { pending := 0, processing := 0, failed := 0, completed := 0 }
              | Except.ok c =>
                  { pending := p.length, processing := pr.length,
                    failed := f.length, completed := c.length }

/-- The JSON payload of GET /relayer/stats (routes.ts lines 168 to 188). -/
structure StatsPayload where
  queue : QueueStats
  current : Nat
  maxConc : Nat
deriving DecidableEq, Repr

/-- The GET /relayer/stats handler: it never throws because getQueueStats
catches store errors internally, so the response status is always 200. -/
def statsRoute (sel : String → Except String (List TransferRow))
    (current maxConc : Nat) : Nat × StatsPayload :=
  (200, { queue := getQueueStats sel, current := current, maxConc := maxConc })

/-- An HTTP route key of the relayer router. -/
structure Endpoint where
  method : String
  path : String
deriving DecidableEq, Repr

/-- Every route registered on the relayer router (routes.ts lines 60 to
222), all of them behind the single router.use rate limiter of line 57. -/
def relayerEndpoints : List Endpoint :=
  [{ method := "POST", path := "/submit" },
   { method := "POST", path := "/transfers" },
   { method := "GET", path := "/transfers/:id" },
   { method := "GET", path := "/stats" },
   { method := "GET", path := "/health" },
   { method := "PUT", path := "/admin/concurrency" }]

/-- The per-client request-timestamp map of the rate limiter. -/
abbrev RateMap := List (String × List Int)

/-- Timestamps recorded for a client, empty when the client is unknown. -/
def lookupIP (m : RateMap) (ip : String) : List Int :=
  match m.find? (fun p => p.1 == ip) with
  | some p => p.2
  | none => []

/-- Store the timestamp list of a client, inserting the client if absent. -/
def setIP (m : RateMap) (ip : String) (l : List Int) : RateMap :=
  if m.any (fun p => p.1 == ip) then
    m.map (fun p => if p.1 == ip then (ip, l) else p)
  else m ++ [(ip, l)]

/-- One pass of the rateLimit middleware body (routes.ts lines 28 to 54) on
the timestamp list of one client: drop timestamps at or before the window
start, reject with a retryAfter of ceil(windowMs over 1000) when the recent
count reaches the cap (leaving the stored list untouched), otherwise record
the new request. -/
def rateLimitCheck (maxRequests : Nat) (windowMs : Int) (requests : List Int)
    (now : Int) : Option Nat × List Int :=
  let windowStart := now - windowMs
  let recent := requests.filter (fun ts => ts > windowStart)
  if recent.length ≥ maxRequests then
    (some ((windowMs + 999) / 1000).toNat, requests)
  else
    (none, recent ++ [now])

/-- The response of one dispatched request in the router model. -/
inductive RouteResponse where
  | rateLimited (status : Nat) (retryAfter : Nat)
  | handled (e : Endpoint)
  | noMatch
deriving DecidableEq, Repr

/-- The map after the has-check of routes.ts lines 33 to 35, which inserts
an empty timestamp list for an unknown client. -/
def ensuredMap (m : RateMap) (ip : String) : RateMap :=
  if m.any (fun p => p.1 == ip) then m else m ++ [(ip, [])]

/-- The requests of one client still inside the sliding window. -/
def recentRequests (m : RateMap) (ip : String) (now : Int) : List Int :=
  (lookupIP (ensuredMap m ip) ip).filter (fun ts => ts > now - 60000)

/-- Dispatch of one request through the relayer router: every registered
endpoint first passes the shared rateLimit(10, 60000) middleware keyed by
the client address; builder code ensures the client has a map entry before
the check, exactly as lines 33 to 35 of routes.ts do. -/
def dispatchRelayer (ep : Endpoint) (ip : String) (now : Int) (m : RateMap) :
    RouteResponse × RateMap :=
  if ep ∈ relayerEndpoints then
    match rateLimitCheck 10 60000 (lookupIP (ensuredMap m ip) ip) now with
    | (some ra, _) => (RouteResponse.rateLimited 429 ra, ensuredMap m ip)
    | (none, st) => (RouteResponse.handled ep, setIP (ensuredMap m ip) ip st)
  else (RouteResponse.noMatch, m)

/-! ## Sample data for concrete runs -/

/-- A sample native transfer used by the concrete runs below. -/
def tSamp : SignedTransferMessage :=
  { fromAddr := "0xaa", toAddr := "0xbb", amount := "1.0", nonce := "0x01",
    deadline := 1000, signature := "0xsig", contractAddress := "0xcc",
    tokenAddress := none }

/-- A sample oracle under which every check of tSamp passes: the signature
recovers the sender from the legacy personal-sign digest the code builds,
the nonce is fresh on both sources, funds suffice and no withdrawal is
active. -/
def envSamp : OracleEnv :=
  { now := 500, parseAmount := some 1,
    recover := fun d s =>
      if d = codeDigest tSamp 1 && s == "0xsig" then some "0xAA" else none,
    usedNonces := Except.ok false, lockedFundsETH := Except.ok 5,
    lockedFundsERC20 := Except.ok 0, withdrawTimestamps := Except.ok 0 }

/-- An oracle whose on-chain nonce view throws while every check passes:
the thrown call pushes an error string without clearing any flag. -/
def envC7 : OracleEnv := { envSamp with usedNonces := Except.error "rpc down" }

/-- An oracle with an active withdrawal exactly three hundred seconds old:
the grace window is still open. -/
def envC8a : OracleEnv := { envSamp with withdrawTimestamps := Except.ok 200 }

/-- An oracle with an active withdrawal three hundred one seconds old: the
lockout has started. -/
def envC8b : OracleEnv := { envSamp with withdrawTimestamps := Except.ok 199 }

/-- An oracle modelling a sender who signed the EIP-712 typed data exactly
as the EIP-712 code paths of the repository build it: recovery succeeds
exactly on the EIP-712 digest of tSamp for the Sepolia chain id that
part_008 defaults to. -/
def envC1eip : OracleEnv :=
  { envSamp with
    recover := fun d s =>
      if d = eip712Digest 11155111 tSamp 1 && s == "0xsig" then some "0xaa" else none }

/-- An oracle modelling a sender who signed under the legacy personal-sign
convention: recovery succeeds exactly on the personal-sign digest of the
packed fields the code hashes. -/
def envC1leg : OracleEnv :=
  { envSamp with
    recover := fun d s =>
      if d = codeDigest tSamp 1 && s == "0xsig" then some "0xaa" else none }

/-- A store whose select by the failed status throws. -/
def selC10 : String → Except String (List TransferRow) :=
  fun s => if s == "failed" then Except.error "db down" else Except.ok []

/-- A stored transfer in status validated holding a transaction hash and a
block number from an earlier submission. -/
def rowC3 : TransferRow :=
  { id := 1, fromAddress := "0xaa", toAddress := "0xbb", amount := "1.0",
    nonce := "0x01", deadline := 1000, signature := "0xsig",
    contractAddress := "0xcc", tokenAddress := none, status := "validated",
    txHash := some "0xab", blockNumber := some 5, retryCount := 0,
    errorMessage := none, createdAt := 0, validatedAt := some 1,
    submittedAt := some 2, confirmedAt := none }

/-- An oracle under which re-validation of rowC3 fails solely because the
on-chain usedNonces view answers true. -/
def oracleC3 : OracleEnv :=
  { now := 500, parseAmount := some 1,
    recover := fun _ _ => some "0xaa",
    usedNonces := Except.ok true, lockedFundsETH := Except.ok 5,
    lockedFundsERC20 := Except.ok 0, withdrawTimestamps := Except.ok 0 }

/-- An executor environment for runs that never reach the submission phase. -/
def eenvC3 : ExecEnv :=
  { oracle := oracleC3, submitResult := Except.error "unreachable",
    waitResult := Except.error "unreachable", parseFailMsg := "unreachable" }

/-- The same row with a stored block number of zero, which JavaScript
truthiness treats as absent. -/
def rowC3z : TransferRow := { rowC3 with blockNumber := some 0 }

/-- The store holding only the zero-block row. -/
def dbC3z : DBState := { rows := [rowC3z], logs := [] }

/-- The store holding only the well-formed row. -/
def dbC3 : DBState := { rows := [rowC3], logs := [] }

/-- The operations the relayer scheduler can run against the store: a full
processQueue tick, a retry scan, or one executor run on a transfer id. -/
inductive QueueOp where
  | tick (eenvf : Nat → ExecEnv) (nowMs : Int) (isProcessing : Bool) (current maxConc : Nat)
  | retryScan (nowMs : Int)
  | execRun (eenv : ExecEnv) (proc : List Nat) (nowMs : Int) (tid : Nat)

/-- Run one scheduler operation against the store. -/
def applyOp : QueueOp → DBState → DBState
  | QueueOp.tick f now p c m, db => processQueue f now p c m db
  | QueueOp.retryScan now, db => processRetryQueue now db
  | QueueOp.execRun e pr now tid, db => (executeSignedTransfer e pr now db tid).db

/-- A store transition leaves the row pf untouched: pf is still present and
is the only row with its id, row ids are unchanged, and every appended log
event belongs to another transfer. -/
def UntouchedFrom (pf : TransferRow) (db db2 : DBState) : Prop :=
  pf ∈ db2.rows
  ∧ (∀ r ∈ db2.rows, r.id = pf.id → r = pf)
  ∧ db2.rows.map (fun r => r.id) = db.rows.map (fun r => r.id)
  ∧ ∃ L, db2.logs = db.logs ++ L ∧ ∀ e ∈ L, e.transferId ≠ pf.id

/-- A transfer stranded in status pending with a recorded transaction hash,
as persistence leaves it when the process dies between submission and
confirmation. -/
def rowC2 : TransferRow :=
  { id := 1, fromAddress := "0xaa", toAddress := "0xbb", amount := "1.0",
    nonce := "0x01", deadline := 1000, signature := "0xsig",
    contractAddress := "0xcc", tokenAddress := none, status := "pending",
    txHash := some "0xab", blockNumber := some 5, retryCount := 0,
    errorMessage := none, createdAt := 0, validatedAt := some 1,
    submittedAt := some 2, confirmedAt := none }

/-- The store after a restart holding only the stranded pending row. -/
def dbC2 : DBState := { rows := [rowC2], logs := [] }

/-- An executor environment for the restart scenario: the transaction of
rowC2 is already mined, so the on-chain nonce view answers true. -/
def eenvC2 : ExecEnv :=
  { oracle := { now := 500, parseAmount := some 1,
                recover := fun _ _ => some "0xaa",
                usedNonces := Except.ok true, lockedFundsETH := Except.ok 5,
                lockedFundsERC20 := Except.ok 0, withdrawTimestamps := Except.ok 0 },
    submitResult := Except.error "unreachable",
    waitResult := Except.error "unreachable", parseFailMsg := "unreachable" }

/-- A failed transfer created long ago whose latest failure is recent. -/
def rowC4 : TransferRow :=
  { id := 1, fromAddress := "0xaa", toAddress := "0xbb", amount := "1.0",
    nonce := "0x01", deadline := 1000, signature := "0xsig",
    contractAddress := "0xcc", tokenAddress := none, status := "failed",
    txHash := none, blockNumber := none, retryCount := 2,
    errorMessage := some "Transaction reverted", createdAt := 0,
    validatedAt := some 1, submittedAt := some 2, confirmedAt := none }

/-- The store for the retry-backoff run: the row was created at time zero
and its most recent failed event was logged at one hundred seconds. -/
def dbC4 : DBState :=
  { rows := [rowC4],
    logs := [{ transferId := 1, status := "failed",
               message := "Transaction reverted", timestamp := 100000 }] }

/-- A permanently failed transfer for the terminality runs. -/
def pfC6 : TransferRow :=
  { id := 1, fromAddress := "0xaa", toAddress := "0xbb", amount := "1.0",
    nonce := "0x01", deadline := 1000, signature := "0xsig",
    contractAddress := "0xcc", tokenAddress := none,
    status := "permanently_failed", txHash := none, blockNumber := none,
    retryCount := 0, errorMessage := some "Transfer deadline has expired",
    createdAt := 0, validatedAt := some 1, submittedAt := none,
    confirmedAt := none }

/-- A store holding the permanently failed row next to a failed one. -/
def dbC6 : DBState :=
  { rows := [pfC6, { rowC4 with id := 2, nonce := "0x02" }], logs := [] }

/-- A sequence of scheduler operations for the terminality witness: a tick,
a retry scan and a direct executor run on the permanently failed id. -/
def opsC6 : List QueueOp :=
  [QueueOp.tick (fun _ => eenvC2) 600 true 0 3,
   QueueOp.retryScan 5000,
   QueueOp.execRun eenvC2 [] 700 1]

/-! ## General lemmas about the validator result -/

/-- The overall verdict is by construction the conjunction of the flag
conjunction and the emptiness test of the error list. -/
theorem validate_isValid_eq (env : OracleEnv) (dbRows : Except String (List TransferRow))
    (t : SignedTransferMessage) (ex : Option Nat) :
    (validateSignedTransfer env dbRows t ex).isValid
      = (allChecksHold (validateSignedTransfer env dbRows t ex).checks
         && ((validateSignedTransfer env dbRows t ex).errors.length == 0)) := by
  cases dbRows <;> rfl

/-- The signatureValid flag is the first component of the signature stage on
both database paths. -/
theorem validate_signatureValid_eq (env : OracleEnv) (dbRows : Except String (List TransferRow))
    (t : SignedTransferMessage) (ex : Option Nat) :
    (validateSignedTransfer env dbRows t ex).checks.signatureValid = (signatureStage env t).1 := by
  cases dbRows <;> rfl

/-! ## Shared sample data for concrete runs -/

/-! ## C7: overall verdict versus the six flags -/

/-- C7 counterexample: a run in which all six check flags hold and the
overall verdict is nevertheless false, because the on-chain nonce view
threw and left an error string behind.  This refutes the claim that
isValid is true if and only if the six flags hold. -/
theorem claim_c7_counterexample :
    allChecksHold (validateSignedTransfer envC7 (Except.ok []) tSamp none).checks = true
    ∧ (validateSignedTransfer envC7 (Except.ok []) tSamp none).isValid = false := by
  decide

/-- C7 (amended): the overall verdict isValid is true if and only if all six
check flags hold and the error list is empty. -/
theorem isValid_iff_checks_and_no_errors (env : OracleEnv)
    (dbRows : Except String (List TransferRow)) (t : SignedTransferMessage)
    (ex : Option Nat) :
    (validateSignedTransfer env dbRows t ex).isValid = true ↔
      (allChecksHold (validateSignedTransfer env dbRows t ex).checks = true
       ∧ (validateSignedTransfer env dbRows t ex).errors = []) := by
  rw [validate_isValid_eq, Bool.and_eq_true]
  constructor
  · rintro ⟨h1, h2⟩
    refine ⟨h1, List.length_eq_zero.mp ?_⟩
    simpa using h2
  · rintro ⟨h1, h2⟩
    simp [h1, h2]

/-! ## C8: grace-period window boundary -/

/-- C8: when the withdrawal timestamp reads zero the grace flag is true;
when it reads a positive T the flag is true exactly when the current time
is at most T plus three hundred seconds, and past that bound the lockout
error string is reported. -/
theorem grace_period_window (env : OracleEnv) (rows : List TransferRow)
    (t : SignedTransferMessage) (ex : Option Nat) :
    (env.withdrawTimestamps = Except.ok 0 →
       (validateSignedTransfer env (Except.ok rows) t ex).checks.gracePeriodActive = true)
    ∧ (∀ T : Int, 0 < T → env.withdrawTimestamps = Except.ok T →
        ((validateSignedTransfer env (Except.ok rows) t ex).checks.gracePeriodActive
            = decide (env.now ≤ T + 300)
         ∧ (T + 300 < env.now →
             "Sender is in withdrawal lockout period"
               ∈ (validateSignedTransfer env (Except.ok rows) t ex).errors))) := by
  have hg : (validateSignedTransfer env (Except.ok rows) t ex).checks.gracePeriodActive
      = (graceStage env).1 := rfl
  have he : (validateSignedTransfer env (Except.ok rows) t ex).errors
      = okErrors env rows t ex := rfl
  constructor
  · intro h0
    rw [hg]
    unfold graceStage
    rw [h0]
    simp
  · intro T hT hTeq
    constructor
    · rw [hg]
      unfold graceStage
      rw [hTeq]
      by_cases hc : env.now ≤ T + 300 <;> simp [hT, hc]
    · intro hlt
      rw [he]
      unfold okErrors
      have h6 : (graceStage env).2 = ["Sender is in withdrawal lockout period"] := by
        unfold graceStage
        rw [hTeq]
        simp [hT, not_le.mpr hlt]
      simp [h6]

/-- C8 witness: at current time five hundred, a withdrawal timestamp of two
hundred still passes while one of one hundred ninety nine yields the
lockout error. -/
theorem grace_period_window_witness :
    (validateSignedTransfer envC8a (Except.ok []) tSamp none).checks.gracePeriodActive
        = decide ((500 : Int) ≤ 200 + 300)
    ∧ "Sender is in withdrawal lockout period"
        ∈ (validateSignedTransfer envC8b (Except.ok []) tSamp none).errors := by
  refine ⟨((grace_period_window envC8a [] tSamp none).2 200 (by decide) rfl).1, ?_⟩
  exact ((grace_period_window envC8b [] tSamp none).2 199 (by decide) rfl).2 (by decide)

/-! ## C1: which digest the signature check verifies -/

/-- C1 counterexample: a signature that is valid as the EIP-712 typed data
built by the EIP-712 validator variant of this repository is rejected by
the deployed validator, a signature valid under the legacy personal-sign
convention is accepted, and the digest src/server/relayer/validator.ts
verifies differs from the EIP-712 digest of src/unnamed/part_008 that the
claim describes.  This refutes the claim that the deployed validator
recovers the signer from EIP-712 typed data and rejects personal-sign
signatures. -/
theorem claim_c1_counterexample :
    (validateSignedTransfer envC1eip (Except.ok []) tSamp none).checks.signatureValid = false
    ∧ (validateSignedTransfer envC1leg (Except.ok []) tSamp none).checks.signatureValid = true
    ∧ codeDigest tSamp 1 ≠ eip712Digest 11155111 tSamp 1 := by
  decide

/-- C1 (amended): the validator recovers the signer from the legacy
personal-sign digest of the solidity-packed fields, sets signatureValid
exactly when the recovered address equals the sender case-insensitively,
with any recovery error yielding false; consequently a signer whose
signatures verify only as EIP-712 typed data is always rejected. -/
theorem signature_check_personal_sign (env : OracleEnv)
    (dbRows : Except String (List TransferRow)) (t : SignedTransferMessage)
    (ex : Option Nat) (aw : Int) (hp : env.parseAmount = some aw) :
    ((validateSignedTransfer env dbRows t ex).checks.signatureValid
      = (match env.recover (Digest.personalSign (codeMessagePacked t aw)) t.signature with
         | some a => lowerAscii a == lowerAscii t.fromAddr
         | none => false))
    ∧ ((∀ p s, env.recover (Digest.personalSign p) s = none) →
        (validateSignedTransfer env dbRows t ex).checks.signatureValid = false) := by
  have h := validate_signatureValid_eq env dbRows t ex
  constructor
  · rw [h]
    unfold signatureStage
    rw [hp]
    rcases h2 : env.recover (codeDigest t aw) t.signature with _ | a
    · simp [codeDigest] at h2
      simp [codeDigest, h2]
    · simp [codeDigest] at h2
      by_cases hc : lowerAscii a == lowerAscii t.fromAddr <;> simp [codeDigest, h2, hc]
  · intro hnone
    rw [h]
    unfold signatureStage
    rw [hp]
    simp [codeDigest, hnone]

/-- C1 witness: under the legacy-signer oracle the signature flag equals the
personal-sign recovery comparison, instantiating the amended claim at the
sample transfer. -/
theorem signature_check_personal_sign_witness :
    (validateSignedTransfer envC1leg (Except.ok []) tSamp none).checks.signatureValid
      = (match envC1leg.recover (Digest.personalSign (codeMessagePacked tSamp 1)) tSamp.signature with
         | some a => lowerAscii a == lowerAscii tSamp.fromAddr
         | none => false) :=
  (signature_check_personal_sign envC1leg (Except.ok []) tSamp none 1 rfl).1

/-! ## C10: queue statistics degrade to zeros on store errors -/

/-- C10: when any of the four status selects throws, getQueueStats returns
all-zero counts, and the stats route still answers 200 with those zeros. -/
theorem stats_zero_on_store_error (sel : String → Except String (List TransferRow))
    (cur maxC : Nat) (s e : String)
    (hs : s ∈ ["validated", "pending", "failed", "confirmed"])
    (he : sel s = Except.error e) :
    getQueueStats sel = { pending := 0, processing := 0, failed := 0, completed := 0 }
    ∧ statsRoute sel cur maxC
        = (200, { queue := { pending := 0, processing := 0, failed := 0, completed := 0 },
                  current := cur, maxConc := maxC }) := by
  have hz : getQueueStats sel
      = { pending := 0, processing := 0, failed := 0, completed := 0 } := by
    simp only [List.mem_cons, List.mem_singleton, List.not_mem_nil, or_false] at hs
    unfold getQueueStats
    rcases hs with rfl | rfl | rfl | rfl
    · rw [he]
    · rcases h1 : sel "validated" with _ | l1
      · rfl
      · rw [he]
    · rcases h1 : sel "validated" with _ | l1
      · rfl
      · rcases h2 : sel "pending" with _ | l2
        · rfl
        · rw [he]
    · rcases h1 : sel "validated" with _ | l1
      · rfl
      · rcases h2 : sel "pending" with _ | l2
        · rfl
        · rcases h3 : sel "failed" with _ | l3
          · rfl
          · rw [he]
  refine ⟨hz, ?_⟩
  unfold statsRoute
  rw [hz]

/-- C10 witness: with the failing store the stats are all zeros and the
route answers 200. -/
theorem stats_zero_on_store_error_witness :
    getQueueStats selC10 = { pending := 0, processing := 0, failed := 0, completed := 0 }
    ∧ statsRoute selC10 2 3
        = (200, { queue := { pending := 0, processing := 0, failed := 0, completed := 0 },
                  current := 2, maxConc := 3 }) :=
  stats_zero_on_store_error selC10 2 3 "failed" "db down" (by simp) rfl

/-! ## C9: one rate-limit window in front of every relayer endpoint -/

/-- C9: every endpoint registered on the relayer router is gated by the one
shared sliding window of its client: with ten or more requests still in the
window the dispatch answers 429 with a constant retryAfter of sixty
seconds (and records nothing), and below ten the handler runs and the
request is recorded. -/
theorem rate_limit_whole_router (ep : Endpoint) (ip : String) (m : RateMap) (now : Int)
    (hep : ep ∈ relayerEndpoints) :
    (10 ≤ (recentRequests m ip now).length →
       dispatchRelayer ep ip now m = (RouteResponse.rateLimited 429 60, ensuredMap m ip))
    ∧ ((recentRequests m ip now).length < 10 →
       dispatchRelayer ep ip now m
         = (RouteResponse.handled ep, setIP (ensuredMap m ip) ip (recentRequests m ip now ++ [now]))) := by
  have hra : (((60000 : Int) + 999) / 1000).toNat = 60 := by decide
  constructor
  · intro h
    unfold dispatchRelayer
    rw [if_pos hep]
    have hc : rateLimitCheck 10 60000 (lookupIP (ensuredMap m ip) ip) now
        = (some 60, lookupIP (ensuredMap m ip) ip) := by
      unfold rateLimitCheck
      rw [if_pos]
      · rw [hra]
      · exact h
    rw [hc]
  · intro h
    unfold dispatchRelayer
    rw [if_pos hep]
    have hc : rateLimitCheck 10 60000 (lookupIP (ensuredMap m ip) ip) now
        = (none, recentRequests m ip now ++ [now]) := by
      unfold rateLimitCheck
      rw [if_neg]
      · rfl
      · exact Nat.not_le.mpr h
    rw [hc]

/-- C9 witness: a client with ten recorded requests inside the window is
answered 429 with retryAfter sixty even on the health endpoint. -/
theorem rate_limit_whole_router_witness :
    dispatchRelayer { method := "GET", path := "/health" } "1.2.3.4" 20000
        [("1.2.3.4", [1, 2, 3, 4, 5, 6, 7, 8, 9, 10])]
      = (RouteResponse.rateLimited 429 60,
         ensuredMap [("1.2.3.4", [1, 2, 3, 4, 5, 6, 7, 8, 9, 10])] "1.2.3.4") :=
  (rate_limit_whole_router { method := "GET", path := "/health" } "1.2.3.4"
      [("1.2.3.4", [1, 2, 3, 4, 5, 6, 7, 8, 9, 10])] 20000 (by decide)).1 (by decide)

/-! ## C5: replaying the same signed message -/

/-- The nonceUnused flag of a successful database path is the staged flag. -/
theorem validate_nonce_flag (env : OracleEnv) (rows : List TransferRow)
    (t : SignedTransferMessage) (ex : Option Nat) :
    (validateSignedTransfer env (Except.ok rows) t ex).checks.nonceUnused
      = nonceUnusedFlag env rows t ex := rfl

/-- A true nonceUnused flag on a first submission means the store held no
row with this nonce. -/
theorem nonceUnusedFlag_true_no_rows (env : OracleEnv) (rows : List TransferRow)
    (t : SignedTransferMessage) (h : nonceUnusedFlag env rows t none = true) :
    rows.filter (fun r => r.nonce == t.nonce) = [] := by
  have hrel : relevantNonceRows rows t none = rows.filter (fun r => r.nonce == t.nonce) := rfl
  unfold nonceUnusedFlag at h
  rcases henv : env.usedNonces with e | b
  · rw [henv] at h
    rw [hrel] at h
    simp only [beq_iff_eq] at h
    exact List.length_eq_zero.mp h
  · cases b
    · rw [henv] at h
      rw [hrel] at h
      simp only [beq_iff_eq] at h
      exact List.length_eq_zero.mp h
    · rw [henv] at h
      exact absurd h (by simp)

/-- Every error accumulated before the on-chain nonce stage survives it. -/
theorem mem_onchainNonceErrors (env : OracleEnv) (errsA : List String)
    (a : String) (h : a ∈ errsA) : a ∈ onchainNonceErrors env errsA := by
  unfold onchainNonceErrors
  rcases env.usedNonces with e | b
  · simp [h]
  · cases b
    · simpa using h
    · by_cases hc : "Nonce already used" ∈ errsA <;> simp [hc, h]

/-- A conjunction of all six flags forces the nonce flag. -/
theorem allChecksHold_nonce (c : Checks) (h : allChecksHold c = true) :
    c.nonceUnused = true := by
  simp [allChecksHold, Bool.and_eq_true] at h
  tauto

/-- When the store already holds a row with the nonce, validation at ingest
fails and reports the duplicate-nonce error. -/
theorem validate_dup_nonce (env : OracleEnv) (rows : List TransferRow)
    (t : SignedTransferMessage) (h : rows.filter (fun r => r.nonce == t.nonce) ≠ []) :
    (validateSignedTransfer env (Except.ok rows) t none).isValid = false
    ∧ "Nonce already used" ∈ (validateSignedTransfer env (Except.ok rows) t none).errors := by
  have hrel : relevantNonceRows rows t none = rows.filter (fun r => r.nonce == t.nonce) := rfl
  have hlen : ((relevantNonceRows rows t none).length == 0) = false := by
    rw [hrel]
    apply Bool.eq_false_iff.mpr
    intro hx
    simp only [beq_iff_eq] at hx
    exact h (List.length_eq_zero.mp hx)
  constructor
  · rw [validate_isValid_eq]
    have hflag : nonceUnusedFlag env rows t none = false := by
      unfold nonceUnusedFlag
      rcases env.usedNonces with e | b
      · exact hlen
      · cases b
        · exact hlen
        · rfl
    have : allChecksHold (validateSignedTransfer env (Except.ok rows) t none).checks = false := by
      rw [show (validateSignedTransfer env (Except.ok rows) t none).checks
            = okChecks env rows t none from rfl]
      simp [allChecksHold, okChecks, hflag]
    simp [this]
  · rw [show (validateSignedTransfer env (Except.ok rows) t none).errors
        = okErrors env rows t none from rfl]
    unfold okErrors
    have hdb : dbNonceErrors rows t none = ["Nonce already used"] := by
      unfold dbNonceErrors
      rw [hlen]
      simp
    have hmem : "Nonce already used"
        ∈ (amountStage env).2 ++ (deadlineStage env t).2 ++ (signatureStage env t).2
            ++ dbNonceErrors rows t none := by
      rw [hdb]
      simp
    exact List.mem_append_left _ (List.mem_append_left _ (mem_onchainNonceErrors env _ _ hmem))

/-- Filtering by nonce is blind to any row map that preserves the nonce
column. -/
theorem filter_nonce_map (g : TransferRow → TransferRow)
    (hg : ∀ r, (g r).nonce = r.nonce) (l : List TransferRow) (n : String) :
    ((l.map g).filter (fun r => r.nonce == n)).length
      = (l.filter (fun r => r.nonce == n)).length := by
  induction l with
  | nil => rfl
  | cons x xs ih =>
      simp only [List.map_cons, List.filter_cons, hg]
      by_cases hn : (x.nonce == n) = true
      · simp [hn, ih]
      · simp [hn, ih]

/-- C5: after a successful submission of a signed message, submitting the
very same message again fails with the duplicate-nonce error, leaves the
store untouched, and exactly one persisted row carries that nonce. -/
theorem submit_replay_rejected (env1 env2 : OracleEnv) (now1 now2 : Int)
    (db : DBState) (t : SignedTransferMessage) (id1 id2 : Nat)
    (h : (submitTransfer env1 now1 db t id1).1.success = true) :
    ((submitTransfer env2 now2 (submitTransfer env1 now1 db t id1).2 t id2).1.success = false)
    ∧ ("Nonce already used"
        ∈ (submitTransfer env2 now2 (submitTransfer env1 now1 db t id1).2 t id2).1.errors)
    ∧ ((submitTransfer env2 now2 (submitTransfer env1 now1 db t id1).2 t id2).2
        = (submitTransfer env1 now1 db t id1).2)
    ∧ (((submitTransfer env1 now1 db t id1).2.rows.filter
          (fun r => r.nonce == t.nonce)).length = 1) := by
  by_cases hv : (validateSignedTransfer env1 (Except.ok db.rows) t none).isValid = true
  case neg =>
    have hfalse : (validateSignedTransfer env1 (Except.ok db.rows) t none).isValid = false :=
      Bool.eq_false_iff.mpr hv
    simp [submitTransfer, hfalse] at h
  case pos =>
    have hempty : db.rows.filter (fun r => r.nonce == t.nonce) = [] := by
      apply nonceUnusedFlag_true_no_rows env1
      rw [← validate_nonce_flag env1 db.rows t none]
      apply allChecksHold_nonce
      exact ((isValid_iff_checks_and_no_errors env1 (Except.ok db.rows) t none).mp hv).1
    have hrows : (submitTransfer env1 now1 db t id1).2.rows
        = (db.rows ++ [receivedRow t id1 now1]).map
            (fun r => if r.id = id1 then markValidated now1 r else r) := by
      simp [submitTransfer, hv, appendLog, setRow]
    have hgpres : ∀ r : TransferRow,
        ((fun r => if r.id = id1 then markValidated now1 r else r) r).nonce = r.nonce := by
      intro r
      by_cases hid : r.id = id1 <;> simp [hid, markValidated]
    have hcount : ((submitTransfer env1 now1 db t id1).2.rows.filter
        (fun r => r.nonce == t.nonce)).length = 1 := by
      rw [hrows, filter_nonce_map _ hgpres, List.filter_append, hempty]
      simp [receivedRow]
    have hne : (submitTransfer env1 now1 db t id1).2.rows.filter
        (fun r => r.nonce == t.nonce) ≠ [] := by
      intro hx
      rw [hx] at hcount
      exact absurd hcount (by simp)
    have hdup := validate_dup_nonce env2 (submitTransfer env1 now1 db t id1).2.rows t hne
    set db1 := (submitTransfer env1 now1 db t id1).2 with hdb1
    have hv2 : (validateSignedTransfer env2 (Except.ok db1.rows) t none).isValid = false :=
      hdup.1
    have hsub2 : submitTransfer env2 now2 db1 t id2
        = ({ success := false, transferId := none,
             errors := (validateSignedTransfer env2 (Except.ok db1.rows) t none).errors }, db1) := by
      simp only [submitTransfer, hv2]
      simp
    refine ⟨?_, ?_, ?_, hcount⟩
    · rw [hsub2]
    · rw [hsub2]
      exact hdup.2
    · rw [hsub2]

/-- C5 witness: submitting the sample transfer twice from an empty store
leaves one row with its nonce and rejects the replay. -/
theorem submit_replay_rejected_witness :
    ((submitTransfer envSamp 200 (submitTransfer envSamp 100 { rows := [], logs := [] } tSamp 1).2 tSamp 2).1.success = false)
    ∧ ("Nonce already used"
        ∈ (submitTransfer envSamp 200 (submitTransfer envSamp 100 { rows := [], logs := [] } tSamp 1).2 tSamp 2).1.errors)
    ∧ ((submitTransfer envSamp 200 (submitTransfer envSamp 100 { rows := [], logs := [] } tSamp 1).2 tSamp 2).2
        = (submitTransfer envSamp 100 { rows := [], logs := [] } tSamp 1).2)
    ∧ (((submitTransfer envSamp 100 { rows := [], logs := [] } tSamp 1).2.rows.filter
          (fun r => r.nonce == tSamp.nonce)).length = 1) :=
  submit_replay_rejected envSamp envSamp 100 200 { rows := [], logs := [] } tSamp 1 2 (by decide)

/-! ## C3: the race-recovery branch of the executor -/

/-- C3 counterexample: re-validation fails solely with the
nonce-already-used-on-chain error and both txHash and blockNumber are
non-null, yet the executor marks the transfer permanently_failed and
returns failure, because the source guards the race-recovery branch with
JavaScript truthiness and a block number of zero is falsy.  This refutes
the claim as stated for non-null blockNumber zero. -/
theorem claim_c3_counterexample :
    ((validateSignedTransfer oracleC3 (Except.ok dbC3z.rows) (msgOfRow rowC3z) (some 1)).errors
        = ["Nonce already used on-chain"])
    ∧ rowC3z.txHash = some "0xab"
    ∧ rowC3z.blockNumber = some 0
    ∧ (executeSignedTransfer eenvC3 [] 600 dbC3z 1).outcome.success = false
    ∧ ((executeSignedTransfer eenvC3 [] 600 dbC3z 1).db.rows.map TransferRow.status
        = ["permanently_failed"]) := by
  decide

/-- C3 (amended): when the executor runs a transfer in status validated
whose re-validation fails solely with the nonce-already-used-on-chain
error, and the row holds a truthy txHash (non-null and nonempty) and a
truthy blockNumber (non-null and nonzero), the executor flips the status to
confirmed, appends the confirmed log event, returns success with the stored
hash and block, and performs no on-chain submission. -/
theorem exec_race_recovery (eenv : ExecEnv) (proc : List Nat) (nowMs : Int)
    (db : DBState) (tid : Nat) (row : TransferRow) (h : String) (b : Int)
    (hproc : proc.contains tid = false)
    (hfind : db.rows.find? (fun r => r.id == tid) = some row)
    (hstat : row.status = "validated")
    (htx : row.txHash = some h) (hh : h ≠ "")
    (hbn : row.blockNumber = some b) (hb : b ≠ 0)
    (herr : (validateSignedTransfer eenv.oracle (Except.ok db.rows) (msgOfRow row) (some tid)).errors
             = ["Nonce already used on-chain"]) :
    (executeSignedTransfer eenv proc nowMs db tid).outcome.success = true
    ∧ (executeSignedTransfer eenv proc nowMs db tid).outcome.txHash = some h
    ∧ (executeSignedTransfer eenv proc nowMs db tid).outcome.blockNumber = some b
    ∧ (executeSignedTransfer eenv proc nowMs db tid).db
        = updateTransferStatus nowMs db tid "confirmed" none
    ∧ (executeSignedTransfer eenv proc nowMs db tid).db.logs
        = db.logs ++ [{ transferId := tid, status := "confirmed",
                        message := "Status updated to confirmed", timestamp := nowMs }]
    ∧ (executeSignedTransfer eenv proc nowMs db tid).submitted = false := by
  have hvalid : (validateSignedTransfer eenv.oracle (Except.ok db.rows) (msgOfRow row) (some tid)).isValid = false := by
    rw [validate_isValid_eq, herr]
    simp
  have hstr : String.intercalate "; "
      (validateSignedTransfer eenv.oracle (Except.ok db.rows) (msgOfRow row) (some tid)).errors
      = "Nonce already used on-chain" := by
    rw [herr]
    decide
  have hinc : strIncludes "Nonce already used on-chain" "Nonce already used" = true := by
    decide
  have htr1 : truthyStr row.txHash = true := by
    rw [htx]
    simp [truthyStr, hh]
  have htr2 : truthyInt row.blockNumber = true := by
    rw [hbn]
    simp [truthyInt, hb]
  have hexec : executeSignedTransfer eenv proc nowMs db tid
      = { outcome := { success := true, txHash := row.txHash,
                       blockNumber := row.blockNumber, gasUsed := none, error := none },
          db := updateTransferStatus nowMs db tid "confirmed" none,
          submitted := false } := by
    unfold executeSignedTransfer
    rw [hproc, hfind]
    simp only [Bool.false_eq_true, if_false]
    rw [hstat]
    simp only [hvalid, hstr, hinc, htr1, htr2]
    simp
  rw [hexec, htx, hbn]
  refine ⟨rfl, rfl, rfl, rfl, ?_, rfl⟩
  simp [updateTransferStatus, statusLogMessage, appendLog, setRow]

/-- C3 witness: the executor confirms the sample row with truthy hash and
block and submits nothing. -/
theorem exec_race_recovery_witness :
    (executeSignedTransfer eenvC3 [] 600 dbC3 1).outcome.success = true
    ∧ (executeSignedTransfer eenvC3 [] 600 dbC3 1).outcome.txHash = some "0xab"
    ∧ (executeSignedTransfer eenvC3 [] 600 dbC3 1).outcome.blockNumber = some 5
    ∧ (executeSignedTransfer eenvC3 [] 600 dbC3 1).db
        = updateTransferStatus 600 dbC3 1 "confirmed" none
    ∧ (executeSignedTransfer eenvC3 [] 600 dbC3 1).db.logs
        = dbC3.logs ++ [{ transferId := 1, status := "confirmed",
                          message := "Status updated to confirmed", timestamp := 600 }]
    ∧ (executeSignedTransfer eenvC3 [] 600 dbC3 1).submitted = false :=
  exec_race_recovery eenvC3 [] 600 dbC3 1 rowC3 "0xab" 5 (by decide) (by decide) rfl rfl
    (by decide) rfl (by decide) (by decide)

/-! ## Row-preservation machinery -/

/-- Distinct ids make a row the unique holder of its id. -/
theorem nodup_uniq : ∀ (l : List TransferRow), ((l.map (fun r => r.id)).Nodup) →
    ∀ pf ∈ l, ∀ r ∈ l, r.id = pf.id → r = pf := by
  intro l
  induction l with
  | nil =>
      intro _ pf hpf
      cases hpf
  | cons x xs ih =>
      intro h pf hpf r hr hrid
      rw [List.map_cons, List.nodup_cons] at h
      rcases List.mem_cons.mp hpf with rfl | hpf2
      · rcases List.mem_cons.mp hr with rfl | hr2
        · rfl
        · exfalso
          apply h.1
          rw [← hrid]
          exact List.mem_map_of_mem (fun r => r.id) hr2
      · rcases List.mem_cons.mp hr with rfl | hr2
        · exfalso
          apply h.1
          rw [hrid]
          exact List.mem_map_of_mem (fun r => r.id) hpf2
        · exact ih h.2 pf hpf2 r hr2 hrid

/-- Under distinct ids, the lookup by id of a stored row returns that row. -/
theorem find_id_eq : ∀ (l : List TransferRow), ((l.map (fun r => r.id)).Nodup) →
    ∀ pf ∈ l, l.find? (fun r => r.id == pf.id) = some pf := by
  intro l
  induction l with
  | nil =>
      intro _ pf hpf
      cases hpf
  | cons x xs ih =>
      intro h pf hpf
      by_cases hx : (x.id == pf.id) = true
      · have hxpf : x = pf :=
          nodup_uniq (x :: xs) h pf hpf x (List.mem_cons_self x xs) (by simpa using hx)
        simp [List.find?_cons, hx, hxpf]
      · simp only [List.find?_cons, hx, cond_false]
        rcases List.mem_cons.mp hpf with rfl | hpf2
        · exact absurd (by simp) hx
        · rw [List.map_cons, List.nodup_cons] at h
          exact ih h.2 pf hpf2

/-- Membership in the insertion sort helper implies membership in the
original list or equality with the inserted row. -/
theorem mem_insertByCreatedAt : ∀ (l : List TransferRow) (r a : TransferRow),
    a ∈ insertByCreatedAt r l → a = r ∨ a ∈ l := by
  intro l
  induction l with
  | nil =>
      intro r a ha
      simp [insertByCreatedAt] at ha
      exact Or.inl ha
  | cons x xs ih =>
      intro r a ha
      unfold insertByCreatedAt at ha
      by_cases hc : r.createdAt < x.createdAt
      · rw [if_pos hc] at ha
        rcases List.mem_cons.mp ha with rfl | ha2
        · exact Or.inl rfl
        · exact Or.inr ha2
      · rw [if_neg hc] at ha
        rcases List.mem_cons.mp ha with rfl | ha2
        · exact Or.inr (List.mem_cons_self _ _)
        · rcases ih r a ha2 with h | h
          · exact Or.inl h
          · exact Or.inr (List.mem_cons_of_mem _ h)

/-- Membership in the sorted list implies membership in the input. -/
theorem mem_sortByCreatedAt : ∀ (l : List TransferRow) (a : TransferRow),
    a ∈ sortByCreatedAt l → a ∈ l := by
  intro l
  induction l with
  | nil =>
      intro a ha
      exact ha
  | cons x xs ih =>
      intro a ha
      rcases mem_insertByCreatedAt (sortByCreatedAt xs) x a ha with rfl | h
      · exact List.mem_cons_self _ _
      · exact List.mem_cons_of_mem _ (ih a h)

/-- The untouched relation is reflexive on stores containing pf uniquely. -/
theorem untouched_refl (pf : TransferRow) (db : DBState) (hm : pf ∈ db.rows)
    (hu : ∀ r ∈ db.rows, r.id = pf.id → r = pf) : UntouchedFrom pf db db := by
  refine ⟨hm, hu, rfl, [], by simp, by simp⟩

/-- The untouched relation composes. -/
theorem untouched_trans {pf : TransferRow} {db1 db2 db3 : DBState}
    (h12 : UntouchedFrom pf db1 db2) (h23 : UntouchedFrom pf db2 db3) :
    UntouchedFrom pf db1 db3 := by
  obtain ⟨m2, u2, i2, L2, hl2, he2⟩ := h12
  obtain ⟨m3, u3, i3, L3, hl3, he3⟩ := h23
  refine ⟨m3, u3, i3.trans i2, L2 ++ L3, ?_, ?_⟩
  · rw [hl3, hl2, List.append_assoc]
  · intro e he
    rcases List.mem_append.mp he with h | h
    · exact he2 e h
    · exact he3 e h

/-- Updating the row of another id leaves pf untouched. -/
theorem untouched_setRow (pf : TransferRow) (db : DBState) (tid : Nat)
    (f : TransferRow → TransferRow) (hf : ∀ r, (f r).id = r.id)
    (hm : pf ∈ db.rows) (hu : ∀ r ∈ db.rows, r.id = pf.id → r = pf)
    (hne : tid ≠ pf.id) : UntouchedFrom pf db (setRow db tid f) := by
  have hgpf : (if pf.id = tid then f pf else pf) = pf := by
    rw [if_neg]
    intro hx
    exact hne hx.symm
  have hids : ∀ l : List TransferRow,
      ((l.map (fun r => if r.id = tid then f r else r)).map (fun r => r.id))
        = l.map (fun r => r.id) := by
    intro l
    induction l with
    | nil => rfl
    | cons x xs ihl =>
        by_cases hc : x.id = tid
        · simp [hc, hf, ihl]
        · simp [hc, ihl]
  refine ⟨?_, ?_, hids db.rows, [], by simp [setRow], by simp⟩
  · have hmem2 := List.mem_map_of_mem (fun r => if r.id = tid then f r else r) hm
    rw [show ((fun r => if r.id = tid then f r else r) pf) = pf from hgpf] at hmem2
    exact hmem2
  · intro r hr hrid
    obtain ⟨x, hx, hxr⟩ := List.mem_map.mp hr
    subst hxr
    have hxid : x.id = pf.id := by
      rw [← hrid]
      by_cases hc : x.id = tid
      · simp [hc, hf]
      · simp [hc]
    have hxpf : x = pf := hu x hx hxid
    subst hxpf
    exact hgpf

/-- Appending a log event of another transfer leaves pf untouched. -/
theorem untouched_appendLog (pf : TransferRow) (db : DBState) (tid : Nat)
    (st msg : String) (now : Int) (hm : pf ∈ db.rows)
    (hu : ∀ r ∈ db.rows, r.id = pf.id → r = pf) (hne : tid ≠ pf.id) :
    UntouchedFrom pf db (appendLog db tid st msg now) := by
  refine ⟨hm, hu, rfl, [{ transferId := tid, status := st, message := msg, timestamp := now }],
          rfl, ?_⟩
  intro e he
  rcases List.mem_singleton.mp he with rfl
  exact hne

/-- The status-update field map never changes the row id. -/
theorem statusUpdateFields_id (nowMs : Int) (status : String) (errMsg : Option String)
    (r : TransferRow) : (statusUpdateFields nowMs status errMsg r).id = r.id := by
  simp only [statusUpdateFields]
  split_ifs <;> rfl

/-- A status update of another id leaves pf untouched. -/
theorem untouched_update (pf : TransferRow) (db : DBState) (tid : Nat)
    (st : String) (em : Option String) (now : Int) (hm : pf ∈ db.rows)
    (hu : ∀ r ∈ db.rows, r.id = pf.id → r = pf) (hne : tid ≠ pf.id) :
    UntouchedFrom pf db (updateTransferStatus now db tid st em) := by
  unfold updateTransferStatus
  have h1 := untouched_setRow pf db tid _ (statusUpdateFields_id now st em) hm hu hne
  exact untouched_trans h1 (untouched_appendLog pf _ tid st _ now h1.1 h1.2.1 hne)

/-- The catch handler of the executor only writes the targeted id. -/
theorem untouched_execCatch (pf : TransferRow) (db : DBState) (tid : Nat)
    (msg : String) (sub : Bool) (now : Int) (hm : pf ∈ db.rows)
    (hu : ∀ r ∈ db.rows, r.id = pf.id → r = pf) (hne : tid ≠ pf.id) :
    UntouchedFrom pf db (execCatch now db tid msg sub).db := by
  unfold execCatch
  dsimp only
  by_cases h1 : isRetryableError msg = true
  · rw [if_pos h1]
    split
    · have h2 := untouched_setRow pf db tid
        (fun r => { r with retryCount := (match db.rows.find? (fun r => r.id == tid) with
                                          | some r => r.retryCount
                                          | none => 0) + 1, errorMessage := some msg })
        (fun r => rfl) hm hu hne
      exact untouched_trans h2 (untouched_appendLog pf _ tid "retry" _ now h2.1 h2.2.1 hne)
    · exact untouched_update pf db tid "failed" (some msg) now hm hu hne
  · rw [if_neg h1]
    exact untouched_update pf db tid "failed" (some msg) now hm hu hne

/-- The submission phase of the executor only writes the targeted id. -/
theorem untouched_execSubmitPhase (pf : TransferRow) (eenv : ExecEnv) (now : Int)
    (db : DBState) (tid : Nat) (hm : pf ∈ db.rows)
    (hu : ∀ r ∈ db.rows, r.id = pf.id → r = pf) (hne : tid ≠ pf.id) :
    UntouchedFrom pf db (execSubmitPhase eenv now db tid).db := by
  unfold execSubmitPhase
  dsimp only
  have h1 := untouched_update pf db tid "pending" none now hm hu hne
  rcases hp : eenv.oracle.parseAmount with _ | aw
  all_goals simp only [hp]
  · exact untouched_trans h1
      (untouched_execCatch pf _ tid eenv.parseFailMsg false now h1.1 h1.2.1 hne)
  · rcases hs : eenv.submitResult with m | hsh
    all_goals simp only [hs]
    · exact untouched_trans h1
        (untouched_execCatch pf _ tid m false now h1.1 h1.2.1 hne)
    · have h2 := untouched_setRow pf _ tid
        (fun r => { r with txHash := some hsh, submittedAt := some now })
        (fun r => rfl) h1.1 h1.2.1 hne
      have h12 := untouched_trans h1 h2
      rcases hw : eenv.waitResult with m | rc
      all_goals simp only [hw]
      · exact untouched_trans h12
          (untouched_execCatch pf _ tid m true now h12.1 h12.2.1 hne)
      · by_cases hrc : (rc.status == 1) = true
        · rw [if_pos hrc]
          have h3 := untouched_setRow pf _ tid
            (fun r => { r with
                        status := "confirmed"
                        blockNumber := some rc.blockNumber
                        confirmedAt := some now })
            (fun r => rfl) h12.1 h12.2.1 hne
          have h123 := untouched_trans h12 h3
          exact untouched_trans h123
            (untouched_appendLog pf _ tid "confirmed" "Transaction confirmed" now
              h123.1 h123.2.1 hne)
        · rw [if_neg hrc]
          exact untouched_trans h12
            (untouched_update pf _ tid "failed" (some "Transaction reverted") now
              h12.1 h12.2.1 hne)

/-- An executor run leaves every row untouched whose status is not
validated, whatever id it targets. -/
theorem untouched_exec (pf : TransferRow) (eenv : ExecEnv) (proc : List Nat)
    (now : Int) (db : DBState) (tid : Nat)
    (hnodup : (db.rows.map (fun r => r.id)).Nodup)
    (hm : pf ∈ db.rows) (hstat : pf.status ≠ "validated") :
    UntouchedFrom pf db (executeSignedTransfer eenv proc now db tid).db := by
  have hu := nodup_uniq db.rows hnodup pf hm
  have hrefl := untouched_refl pf db hm hu
  unfold executeSignedTransfer
  by_cases hp : proc.contains tid = true
  · rw [if_pos hp]
    exact hrefl
  · rw [if_neg hp]
    rcases hfind : db.rows.find? (fun r => r.id == tid) with _ | row
    · simp only [hfind]
      exact hrefl
    · simp only [hfind]
      have hrowmem : row ∈ db.rows := List.mem_of_find?_eq_some hfind
      have hrowid : row.id = tid := by
        have := List.find?_some hfind
        simpa using this
      by_cases hrs : row.status = "validated"
      · have hne : tid ≠ pf.id := by
          intro hx
          have hrow : row = pf := hu row hrowmem (by rw [hrowid, hx])
          rw [hrow] at hrs
          exact hstat hrs
        rw [if_neg (by simp [hrs])]
        by_cases hv : (validateSignedTransfer eenv.oracle (Except.ok db.rows)
            (msgOfRow row) (some tid)).isValid = true
        · rw [if_pos hv]
          exact untouched_execSubmitPhase pf eenv now db tid hm hu hne
        · rw [if_neg hv]
          split
          · split
            · exact untouched_update pf db tid "confirmed" none now hm hu hne
            · exact hrefl
          · split
            · exact untouched_update pf db tid "permanently_failed" _ now hm hu hne
            · exact untouched_update pf db tid "failed" _ now hm hu hne
      · rw [if_pos hrs]
        exact hrefl

/-- Folding executor runs over a row list preserves an untouched row whose
status is not validated. -/
theorem untouched_exec_fold (pf : TransferRow) (eenvf : Nat → ExecEnv) (now : Int) :
    ∀ (l : List TransferRow) (db : DBState),
    ((db.rows.map (fun r => r.id)).Nodup) → pf ∈ db.rows → pf.status ≠ "validated" →
    UntouchedFrom pf db
      (l.foldl (fun acc r => (executeSignedTransfer (eenvf r.id) [] now acc r.id).db) db) := by
  intro l
  induction l with
  | nil =>
      intro db h1 h2 h3
      exact untouched_refl pf db h2 (nodup_uniq db.rows h1 pf h2)
  | cons x xs ih =>
      intro db h1 h2 h3
      rw [List.foldl_cons]
      have hstep := untouched_exec pf (eenvf x.id) [] now db x.id h1 h2 h3
      have h1x : (((executeSignedTransfer (eenvf x.id) [] now db x.id).db.rows.map
          (fun r => r.id)).Nodup) := by
        rw [hstep.2.2.1]
        exact h1
      exact untouched_trans hstep (ih _ h1x hstep.1 h3)

/-- Folding retry flips over a row list of other ids preserves pf. -/
theorem untouched_retry_fold (pf : TransferRow) (now : Int) :
    ∀ (l : List TransferRow) (db : DBState),
    pf ∈ db.rows → (∀ r ∈ db.rows, r.id = pf.id → r = pf) → (∀ r ∈ l, r.id ≠ pf.id) →
    UntouchedFrom pf db
      (l.foldl (fun acc r =>
        if now - r.createdAt ≥ (2 : Int) ^ r.retryCount * 1000 then
          appendLog (setRow acc r.id (fun x => { x with status := "validated" }))
            r.id "retry_queued" ("Queued for retry attempt " ++ toString (r.retryCount + 1)) now
        else acc) db) := by
  intro l
  induction l with
  | nil =>
      intro db hm hu _
      exact untouched_refl pf db hm hu
  | cons x xs ih =>
      intro db hm hu hl
      rw [List.foldl_cons]
      have hxne : x.id ≠ pf.id := hl x (List.mem_cons_self _ _)
      have hstep : UntouchedFrom pf db
          (if now - x.createdAt ≥ (2 : Int) ^ x.retryCount * 1000 then
            appendLog (setRow db x.id (fun r => { r with status := "validated" }))
              x.id "retry_queued" ("Queued for retry attempt " ++ toString (x.retryCount + 1)) now
          else db) := by
        split
        · have h2 := untouched_setRow pf db x.id
            (fun r => { r with status := "validated" }) (fun r => rfl) hm hu hxne
          exact untouched_trans h2
            (untouched_appendLog pf _ x.id "retry_queued" _ now h2.1 h2.2.1 hxne)
        · exact untouched_refl pf db hm hu
      exact untouched_trans hstep
        (ih _ hstep.1 hstep.2.1 (fun r hr => hl r (List.mem_cons_of_mem _ hr)))

/-- The retry scan leaves every row untouched whose status is not failed. -/
theorem untouched_retryScan (pf : TransferRow) (now : Int) (db : DBState)
    (hnodup : (db.rows.map (fun r => r.id)).Nodup)
    (hm : pf ∈ db.rows) (hstat : pf.status ≠ "failed") :
    UntouchedFrom pf db (processRetryQueue now db) := by
  have hu := nodup_uniq db.rows hnodup pf hm
  unfold processRetryQueue
  apply untouched_retry_fold pf now _ db hm hu
  intro r hr hid
  have hr2 : r ∈ db.rows.filter (fun r => r.status == "failed" && r.retryCount < 3) :=
    List.take_subset _ _ hr
  have hrmem : r ∈ db.rows := List.mem_of_mem_filter hr2
  have hrpf : r = pf := hu r hrmem hid
  have hrp := List.of_mem_filter hr2
  rw [hrpf] at hrp
  simp at hrp
  exact hstat hrp.1

/-- A queue tick leaves every row untouched whose status is neither
validated nor failed. -/
theorem untouched_tick (pf : TransferRow) (eenvf : Nat → ExecEnv) (now : Int)
    (isP : Bool) (cur maxC : Nat) (db : DBState)
    (hnodup : (db.rows.map (fun r => r.id)).Nodup) (hm : pf ∈ db.rows)
    (h1 : pf.status ≠ "validated") (h2 : pf.status ≠ "failed") :
    UntouchedFrom pf db (processQueue eenvf now isP cur maxC db) := by
  have hu := nodup_uniq db.rows hnodup pf hm
  unfold processQueue
  split
  · exact untouched_refl pf db hm hu
  · have hfold := untouched_exec_fold pf eenvf now (selectValidated db (maxC - cur)) db
      hnodup hm h1
    apply untouched_trans hfold
    apply untouched_retryScan pf now _ ?_ hfold.1 h2
    rw [hfold.2.2.1]
    exact hnodup

/-- Any scheduler operation leaves every row untouched whose status is
neither validated nor failed. -/
theorem untouched_applyOp (pf : TransferRow) (op : QueueOp) (db : DBState)
    (hnodup : (db.rows.map (fun r => r.id)).Nodup) (hm : pf ∈ db.rows)
    (h1 : pf.status ≠ "validated") (h2 : pf.status ≠ "failed") :
    UntouchedFrom pf db (applyOp op db) := by
  cases op with
  | tick f now p c m => exact untouched_tick pf f now p c m db hnodup hm h1 h2
  | retryScan now => exact untouched_retryScan pf now db hnodup hm h2
  | execRun e pr now tid => exact untouched_exec pf e pr now db tid hnodup hm h1

/-- A whole sequence of scheduler operations leaves such a row untouched. -/
theorem untouched_ops (pf : TransferRow)
    (h1 : pf.status ≠ "validated") (h2 : pf.status ≠ "failed") :
    ∀ (ops : List QueueOp) (db : DBState),
    ((db.rows.map (fun r => r.id)).Nodup) → pf ∈ db.rows →
    UntouchedFrom pf db (ops.foldl (fun d op => applyOp op d) db) := by
  intro ops
  induction ops with
  | nil =>
      intro db hn hm
      exact untouched_refl pf db hm (nodup_uniq db.rows hn pf hm)
  | cons op rest ih =>
      intro db hn hm
      rw [List.foldl_cons]
      have hstep := untouched_applyOp pf op db hn hm h1 h2
      have hn2 : (((applyOp op db).rows.map (fun r => r.id)).Nodup) := by
        rw [hstep.2.2.1]
        exact hn
      exact untouched_trans hstep (ih _ hn2 hstep.1)

/-! ## C6: permanently_failed is terminal -/

/-- C6: a transfer in status permanently_failed is never transitioned by any
sequence of scheduler ticks, retry scans or executor runs: every row still
holding its id keeps status permanently_failed, and no appended log event
for it carries the status validated, pending or confirmed. -/
theorem permanently_failed_terminal (ops : List QueueOp) (db : DBState) (pf : TransferRow)
    (hnodup : (db.rows.map (fun r => r.id)).Nodup)
    (hm : pf ∈ db.rows) (hs : pf.status = "permanently_failed") :
    (pf ∈ (ops.foldl (fun d op => applyOp op d) db).rows)
    ∧ (∀ r ∈ (ops.foldl (fun d op => applyOp op d) db).rows, r.id = pf.id →
         r.status = "permanently_failed")
    ∧ (∀ e ∈ (ops.foldl (fun d op => applyOp op d) db).logs.drop db.logs.length,
         e.transferId = pf.id →
           (e.status ≠ "validated" ∧ e.status ≠ "pending" ∧ e.status ≠ "confirmed")) := by
  have h1 : pf.status ≠ "validated" := by
    rw [hs]
    decide
  have h2 : pf.status ≠ "failed" := by
    rw [hs]
    decide
  have hmain := untouched_ops pf h1 h2 ops db hnodup hm
  obtain ⟨hmem, huniq, hids, L, hlog, hle⟩ := hmain
  refine ⟨hmem, ?_, ?_⟩
  · intro r hr hrid
    rw [huniq r hr hrid]
    exact hs
  · intro e he hid
    rw [hlog, List.drop_left] at he
    exact absurd hid (hle e he)

/-- C6 witness: after a tick, a retry scan and a direct executor run on its
id, the sample permanently failed row keeps its status and receives no
lifecycle event. -/
theorem permanently_failed_terminal_witness :
    (pfC6 ∈ (opsC6.foldl (fun d op => applyOp op d) dbC6).rows)
    ∧ (∀ r ∈ (opsC6.foldl (fun d op => applyOp op d) dbC6).rows, r.id = pfC6.id →
         r.status = "permanently_failed")
    ∧ (∀ e ∈ (opsC6.foldl (fun d op => applyOp op d) dbC6).logs.drop dbC6.logs.length,
         e.transferId = pfC6.id →
           (e.status ≠ "validated" ∧ e.status ≠ "pending" ∧ e.status ≠ "confirmed")) :=
  permanently_failed_terminal opsC6 dbC6 pfC6 (by decide) (by decide) rfl

/-! ## C2: transfers stranded in pending after a restart -/

/-- C2 counterexample: a persisted transfer in status pending with a
transaction hash, whose transaction is already mined, is not re-examined: a
full queue tick leaves the store unchanged, and a direct executor run on
its id refuses with a status error, so the status never becomes confirmed.
This refutes the claim that such rows go through the standard execution
path and end confirmed. -/
theorem claim_c2_counterexample :
    rowC2.status = "pending" ∧ rowC2.txHash = some "0xab"
    ∧ processQueue (fun _ => eenvC2) 600 true 0 3 dbC2 = dbC2
    ∧ (executeSignedTransfer eenvC2 [] 600 dbC2 1).outcome.success = false
    ∧ (executeSignedTransfer eenvC2 [] 600 dbC2 1).db = dbC2
    ∧ ((executeSignedTransfer eenvC2 [] 600 dbC2 1).db.rows.map TransferRow.status
        = ["pending"])
    ∧ (executeSignedTransfer eenvC2 [] 600 dbC2 1).submitted = false := by
  decide

/-- C2 (amended): a persisted transfer left in status pending is never
re-examined after a restart: the queue selection takes only rows in status
validated, a full tick leaves the row untouched and appends no event for
it, and a direct executor run on its id returns a status error, leaves the
store unchanged and submits nothing on chain; its status therefore stays
pending instead of becoming confirmed. -/
theorem pending_rows_stranded (db : DBState) (pf : TransferRow)
    (hnodup : (db.rows.map (fun r => r.id)).Nodup)
    (hm : pf ∈ db.rows) (hs : pf.status = "pending") :
    (∀ limit, pf ∉ selectValidated db limit)
    ∧ (∀ (eenvf : Nat → ExecEnv) (nowMs : Int) (isP : Bool) (cur maxC : Nat),
        pf ∈ (processQueue eenvf nowMs isP cur maxC db).rows
        ∧ (∀ r ∈ (processQueue eenvf nowMs isP cur maxC db).rows, r.id = pf.id → r = pf)
        ∧ (∀ e ∈ (processQueue eenvf nowMs isP cur maxC db).logs.drop db.logs.length,
             e.transferId ≠ pf.id))
    ∧ (∀ (eenv : ExecEnv) (nowMs : Int),
        (executeSignedTransfer eenv [] nowMs db pf.id).outcome.success = false
        ∧ (executeSignedTransfer eenv [] nowMs db pf.id).outcome.error
            = some "Transfer status is pending, expected validated"
        ∧ (executeSignedTransfer eenv [] nowMs db pf.id).db = db
        ∧ (executeSignedTransfer eenv [] nowMs db pf.id).submitted = false) := by
  have h1 : pf.status ≠ "validated" := by
    rw [hs]
    decide
  have h2 : pf.status ≠ "failed" := by
    rw [hs]
    decide
  refine ⟨?_, ?_, ?_⟩
  · intro limit hmem
    have h3 := mem_sortByCreatedAt _ _ (List.take_subset _ _ hmem)
    have h4 := List.of_mem_filter h3
    rw [hs] at h4
    simp at h4
  · intro eenvf nowMs isP cur maxC
    have ht := untouched_tick pf eenvf nowMs isP cur maxC db hnodup hm h1 h2
    obtain ⟨hmem, huniq, hids, L, hlog, hle⟩ := ht
    refine ⟨hmem, huniq, ?_⟩
    intro e he
    rw [hlog, List.drop_left] at he
    exact hle e he
  · intro eenv nowMs
    have hfind := find_id_eq db.rows hnodup pf hm
    have hexec : executeSignedTransfer eenv [] nowMs db pf.id
        = { outcome := { success := false, txHash := none, blockNumber := none,
                         gasUsed := none,
                         error := some ("Transfer status is " ++ pf.status
                                         ++ ", expected validated") },
            db := db, submitted := false } := by
      unfold executeSignedTransfer
      rw [if_neg (fun hx => nomatch hx)]
      simp only [hfind]
      rw [if_pos (by rw [hs]; decide)]
    rw [hexec]
    refine ⟨rfl, ?_, rfl, rfl⟩
    rw [hs]
    rfl

/-- C2 witness: the stranded sample row is not selected by the queue and a
direct executor run refuses it without touching the store. -/
theorem pending_rows_stranded_witness :
    (rowC2 ∉ selectValidated dbC2 3)
    ∧ (executeSignedTransfer eenvC2 [] 600 dbC2 rowC2.id).outcome.success = false
    ∧ (executeSignedTransfer eenvC2 [] 600 dbC2 rowC2.id).db = dbC2
    ∧ (executeSignedTransfer eenvC2 [] 600 dbC2 rowC2.id).submitted = false := by
  have hp := pending_rows_stranded dbC2 rowC2 (by decide) (by decide) rfl
  exact ⟨hp.1 3, (hp.2.2 eenvC2 600).1, (hp.2.2 eenvC2 600).2.2.1,
         (hp.2.2 eenvC2 600).2.2.2⟩

/-! ## C4: retry backoff measured from creation, not from the last failure -/

/-- C4 exhibit: the retry scan flips the sample failed transfer back to
validated at wall time 101000 ms although its most recent failed event was
logged at 100000 ms, only one second earlier, far below the required
2 to the retryCount seconds (four seconds at retryCount two).  The code
compares against createdAt (here zero) instead of the last failed event. -/
theorem retry_backoff_uses_creation_time :
    (((processRetryQueue 101000 dbC4).rows.map TransferRow.status) = ["validated"])
    ∧ ((processRetryQueue 101000 dbC4).logs.drop dbC4.logs.length
        = [{ transferId := 1, status := "retry_queued",
             message := "Queued for retry attempt 3", timestamp := 101000 }])
    ∧ (((dbC4.logs.filter (fun e => e.transferId == 1 && e.status == "failed")).map
          (fun e => e.timestamp)) = [100000])
    ∧ ((101000 : Int) - 100000 < 2 ^ rowC4.retryCount * 1000) := by
  decide

end Aion
